import Mathlib

/-!
Verification development for the KubeArmor log pipeline core
(KubeArmor/types/types.go, the monitor log-building code, and
KubeArmor/feeder/feeder.go), shallowly embedded in Lean 4.

Conventions of the embedding:
* Go strings are `String`, Go `int32`/`int64` are `Int` (values stay in
  range in all statements), Go `uint32` is `Nat`.
* A Go `map[string]string` value is embedded as an association list in
  the order the Go runtime would enumerate it with `range`; since that
  order is unspecified in Go, "the same map value" is captured by the
  permutation relation on the association lists.
* Ambient effects (current time, the gRPC stream handles, send success)
  are passed as explicit parameters or oracles.
-/

namespace KubeArmor

namespace types

/-- Container structure (types.go). -/
structure Container where
  ContainerID : String
  ContainerName : String
  HostName : String
  HostIP : String
  NamespaceName : String
  ContainerGroupName : String
  ImageName : String
  Labels : List String
  AppArmorProfile : String
  deriving Repr, DecidableEq

/-- Log structure (types.go). Go zero values are the empty string / 0.
The Go field `Type` is spelled `Typ` here because `Type` is reserved in
Lean. -/
structure Log where
  UpdatedTime : String := ""
  HostName : String := ""
  NamespaceName : String := ""
  PodName : String := ""
  ContainerID : String := ""
  ContainerName : String := ""
  HostPID : Int := 0
  PPID : Int := 0
  PID : Int := 0
  UID : Int := 0
  PolicyName : String := ""
  Severity : String := ""
  Tags : String := ""
  Message : String := ""
  Typ : String := ""
  Source : String := ""
  Operation : String := ""
  Resource : String := ""
  Data : String := ""
  Action : String := ""
  Result : String := ""
  deriving Repr, DecidableEq

end types

namespace monitor

/-- Modelled from the spec: the monitor's syscall-id constants are declared
outside the given sources; the values are the x86-64 syscall numbers. Only
their distinctness matters to the statements below. -/
def SYS_OPEN : Nat := 2

/-- Modelled from the spec: x86-64 syscall number of close. -/
def SYS_CLOSE : Nat := 3

/-- Modelled from the spec: x86-64 syscall number of socket. -/
def SYS_SOCKET : Nat := 41

/-- Modelled from the spec: x86-64 syscall number of connect. -/
def SYS_CONNECT : Nat := 42

/-- Modelled from the spec: x86-64 syscall number of accept. -/
def SYS_ACCEPT : Nat := 43

/-- Modelled from the spec: x86-64 syscall number of bind. -/
def SYS_BIND : Nat := 49

/-- Modelled from the spec: x86-64 syscall number of listen. -/
def SYS_LISTEN : Nat := 50

/-- Modelled from the spec: x86-64 syscall number of execve. -/
def SYS_EXECVE : Nat := 59

/-- Modelled from the spec: x86-64 syscall number of openat. -/
def SYS_OPENAT : Nat := 257

/-- Modelled from the spec: x86-64 syscall number of execveat. -/
def SYS_EXECVEAT : Nat := 322

/-- Modelled from the spec: the monitor constant for a permission-denied
return value; the spec states the drop rule fires on `retval == -EACCES`,
and EACCES is errno 13. -/
def PERMISSION_DENIED : Int := -13

/-- Modelled from the spec: the errno table translating positive errno
codes into symbolic names ("translate `-retval` through the errno table
into a symbolic name (e.g., `EACCES`)"). The table is the standard list
of POSIX symbolic names for the common codes; it is partial: codes that
are not Linux errnos (e.g. 600) are absent. -/
def errnoTable : List (Int × String) :=
  [(1, "EPERM"), (2, "ENOENT"), (3, "ESRCH"), (4, "EINTR"), (5, "EIO"),
   (6, "ENXIO"), (7, "E2BIG"), (8, "ENOEXEC"), (9, "EBADF"), (10, "ECHILD"),
   (11, "EAGAIN"), (12, "ENOMEM"), (13, "EACCES"), (14, "EFAULT"),
   (15, "ENOTBLK"), (16, "EBUSY"), (17, "EEXIST"), (18, "EXDEV"),
   (19, "ENODEV"), (20, "ENOTDIR"), (21, "EISDIR"), (22, "EINVAL"),
   (23, "ENFILE"), (24, "EMFILE"), (25, "ENOTTY"), (26, "ETXTBSY"),
   (27, "EFBIG"), (28, "ENOSPC"), (29, "ESPIPE"), (30, "EROFS"),
   (31, "EMLINK"), (32, "EPIPE"), (33, "EDOM"), (34, "ERANGE")]

/-- Lookup of a code in the errno table (first match). -/
def errnoLookup (code : Int) : Option String :=
  match errnoTable.find? (fun p => p.1 = code) with
  | some p => some p.2
  | none => none

/-- Modelled from the spec: `getErrorMessage` is called by `UpdateLogs`
but defined outside the given sources. Per the spec it translates
`-retval` through the errno table into a symbolic name; the call site
shows it returns the empty string for unknown codes. -/
def getErrorMessage (retval : Int) : String :=
  match errnoLookup (-retval) with
  | some name => name
  | none => ""

/-- Modelled from the spec: `getSyscallName` is called by `UpdateLogs` but
defined outside the given sources; it renders an event id as the syscall
name used in `resource="syscall=<NAME>"`. -/
def getSyscallName (id : Nat) : String :=
  if id = SYS_OPEN then "open"
  else if id = SYS_CLOSE then "close"
  else if id = SYS_SOCKET then "socket"
  else if id = SYS_CONNECT then "connect"
  else if id = SYS_ACCEPT then "accept"
  else if id = SYS_BIND then "bind"
  else if id = SYS_LISTEN then "listen"
  else if id = SYS_EXECVE then "execve"
  else if id = SYS_EXECVEAT then "execveat"
  else ""

/-- Go conversion `int32(u)` of a `uint32` value. -/
def int32ofUInt32 (n : Nat) : Int :=
  if n < 2 ^ 31 then (n : Int) else (n : Int) - 2 ^ 32

/-- SyscallContext: the fixed part of a raw event, as read by
`BuildLogBase`/`UpdateLogs` (`msg.ContextSys`). `Comm` is the
NUL-padded 16-byte command field, kept as a list of characters. -/
structure SyscallContext where
  HostPID : Nat
  PPID : Nat
  PID : Nat
  UID : Nat
  EventID : Nat
  Comm : List Char
  Retval : Int
  deriving Repr, DecidableEq

/-- One dynamically-typed element of `msg.ContextArgs` (Go
`[]interface{}`): the type assertions in `UpdateLogs` expect `int32`,
`string` or `map[string]string` elements. A map element carries its
Go-runtime enumeration order. -/
inductive Arg where
  | i32 (n : Int)
  | str (s : String)
  | sock (m : List (String × String))
  deriving Repr, DecidableEq

/-- ContextCombined: a decoded event on the context channel. -/
structure ContextCombined where
  ContainerID : String
  ContextSys : SyscallContext
  ContextArgs : List Arg
  deriving Repr, DecidableEq

/-- The monitor state read by the log builder. `Containers` is the
container registry map; `GetExecPath` is the process-tracker lookup
(`mon.GetExecPath(containerID, pid)`), defined outside the given
sources and therefore kept abstract; it returns `""` on a miss. -/
structure SystemMonitor where
  HostName : String
  Containers : String → Option types.Container
  EnableAuditd : Bool
  GetExecPath : String → Nat → String

/-- GetNameFromContainerID (monitor code): registry lookup, returning
`("", "", "")` when the container id is unknown. -/
def GetNameFromContainerID (mon : SystemMonitor) (containerID : String) :
    String × String × String :=
  match mon.Containers containerID with
  | some val => (val.NamespaceName, val.ContainerGroupName, val.ContainerName)
  | none => ("", "", "")

/-- The Go expression `string(comm[:bytes.IndexByte(comm[:], 0)])`:
the command field truncated at its first NUL byte. (When no NUL is
present the Go slice expression would panic; the statements below only
use this under the hypothesis that a NUL occurs, which the kernel
guarantees for the 16-byte comm field.) -/
def commBeforeNul (comm : List Char) : String :=
  String.mk (comm.takeWhile (fun ch => ch ≠ Char.ofNat 0))

/-- BuildLogBase (monitor code): initialize a log from an event. The
current time (`kl.GetDateTimeNow()`) is passed as `now`. -/
def BuildLogBase (mon : SystemMonitor) (now : String) (msg : ContextCombined) :
    types.Log :=
  let names := GetNameFromContainerID mon msg.ContainerID
  let source :=
    if msg.ContextSys.EventID = SYS_EXECVE ∨ msg.ContextSys.EventID = SYS_EXECVEAT then
      mon.GetExecPath msg.ContainerID msg.ContextSys.PPID
    else
      mon.GetExecPath msg.ContainerID msg.ContextSys.PID
  { UpdatedTime := now
    HostName := mon.HostName
    ContainerID := msg.ContainerID
    NamespaceName := names.1
    PodName := names.2.1
    ContainerName := names.2.2
    HostPID := int32ofUInt32 msg.ContextSys.HostPID
    PPID := int32ofUInt32 msg.ContextSys.PPID
    PID := int32ofUInt32 msg.ContextSys.PID
    UID := int32ofUInt32 msg.ContextSys.UID
    Source := if source = "" then commBeforeNul msg.ContextSys.Comm else source }

/-- The Go pattern `if val, ok := args[i].(string); ok { x = val }` with
`x` initialized to the empty string. -/
def argStr (args : List Arg) (i : Nat) : String :=
  match args.get? i with
  | some (Arg.str s) => s
  | _ => ""

/-- The Go pattern `if val, ok := args[i].(int32); ok { x = strconv.Itoa(int(val)) }`
with `x` initialized to the empty string. -/
def argI32 (args : List Arg) (i : Nat) : String :=
  match args.get? i with
  | some (Arg.i32 n) => toString n
  | _ => ""

/-- The Go pattern `if val, ok := args[i].(map[string]string); ok { x = val }`
with `x` a nil map (over which `range` performs no iterations). -/
def argSock (args : List Arg) (i : Nat) : List (String × String) :=
  match args.get? i with
  | some (Arg.sock m) => m
  | _ => []

/-- The Go loop `for k, v := range sockAddr { res = res + " " + k + "=" + v }`
applied to `base`, with the map enumerated in the order recorded in the
embedded value. -/
def appendSockAddr (base : String) (sockAddr : List (String × String)) : String :=
  sockAddr.foldl (fun acc kv => acc ++ " " ++ kv.1 ++ "=" ++ kv.2) base

/-- The result-classification block at the end of `UpdateLogs`:
negative return values are translated via `getErrorMessage`, empty
translations render as `Unknown (<retval>)` (Go `fmt.Sprintf("Unknown (%d)",
msg.ContextSys.Retval)`), and non-negative values as `Passed`. -/
def classifyResult (retval : Int) : String :=
  if retval < 0 then
    let message := getErrorMessage retval
    if message ≠ "" then message
    else "Unknown (" ++ toString retval ++ ")"
  else "Passed"

/-- The `switch msg.ContextSys.EventID` of `UpdateLogs`: shape the base
log for the event, or `none` when the iteration hits a `continue` (the
auditd drop in the open/openat cases, or the `default` case) and no log
is emitted. The Go code mutates `log` field by field and checks the drop
condition after the assignments; building the record and then discarding
it is observationally the same. -/
def shapeEvent (mon : SystemMonitor) (now : String) (msg : ContextCombined) :
    Option types.Log :=
  let log := BuildLogBase mon now msg
  if msg.ContextSys.EventID = SYS_OPEN then
      let fileName := if msg.ContextArgs.length = 2 then argStr msg.ContextArgs 0 else ""
      let fileOpenFlags := if msg.ContextArgs.length = 2 then argStr msg.ContextArgs 1 else ""
      if mon.EnableAuditd ∧ msg.ContextSys.Retval = PERMISSION_DENIED then none
      else some { log with Operation := "File", Resource := fileName,
                           Data := "flags=" ++ fileOpenFlags }
    else if msg.ContextSys.EventID = SYS_OPENAT then
      let fd := if msg.ContextArgs.length = 3 then argI32 msg.ContextArgs 0 else ""
      let fileName := if msg.ContextArgs.length = 3 then argStr msg.ContextArgs 1 else ""
      let fileOpenFlags := if msg.ContextArgs.length = 3 then argStr msg.ContextArgs 2 else ""
      if mon.EnableAuditd ∧ msg.ContextSys.Retval = PERMISSION_DENIED then none
      else some { log with Operation := "File", Resource := fileName,
                           Data := "fd=" ++ fd ++ " flags=" ++ fileOpenFlags }
    else if msg.ContextSys.EventID = SYS_CLOSE then
      let fd := if msg.ContextArgs.length = 1 then argI32 msg.ContextArgs 0 else ""
      some { log with Operation := "File",
                      Resource := getSyscallName msg.ContextSys.EventID,
                      Data := "fd=" ++ fd }
    else if msg.ContextSys.EventID = SYS_SOCKET then
      let sockDomain := if msg.ContextArgs.length = 3 then argStr msg.ContextArgs 0 else ""
      let sockType := if msg.ContextArgs.length = 3 then argStr msg.ContextArgs 1 else ""
      let sockProtocol := if msg.ContextArgs.length = 3 then argI32 msg.ContextArgs 2 else ""
      some { log with Operation := "Network",
                      Resource := "syscall=" ++ getSyscallName msg.ContextSys.EventID ++
                        " domain=" ++ sockDomain ++ " type=" ++ sockType ++
                        " protocol=" ++ sockProtocol,
                      Data := "" }
    else if msg.ContextSys.EventID = SYS_CONNECT then
      let fd := if msg.ContextArgs.length = 2 then argI32 msg.ContextArgs 0 else ""
      let sockAddr := if msg.ContextArgs.length = 2 then argSock msg.ContextArgs 1 else []
      some { log with Operation := "Network",
                      Resource := appendSockAddr
                        ("syscall=" ++ getSyscallName msg.ContextSys.EventID) sockAddr,
                      Data := "fd=" ++ fd }
    else if msg.ContextSys.EventID = SYS_ACCEPT then
      let fd := if msg.ContextArgs.length = 2 then argI32 msg.ContextArgs 0 else ""
      let sockAddr := if msg.ContextArgs.length = 2 then argSock msg.ContextArgs 1 else []
      some { log with Operation := "Network",
                      Resource := appendSockAddr
                        ("syscall=" ++ getSyscallName msg.ContextSys.EventID) sockAddr,
                      Data := "fd=" ++ fd }
    else if msg.ContextSys.EventID = SYS_BIND then
      let fd := if msg.ContextArgs.length = 2 then argI32 msg.ContextArgs 0 else ""
      let sockAddr := if msg.ContextArgs.length = 2 then argSock msg.ContextArgs 1 else []
      some { log with Operation := "Network",
                      Resource := appendSockAddr
                        ("syscall=" ++ getSyscallName msg.ContextSys.EventID) sockAddr,
                      Data := "fd=" ++ fd }
  else if msg.ContextSys.EventID = SYS_LISTEN then
    let fd := if msg.ContextArgs.length = 2 then argI32 msg.ContextArgs 0 else ""
    some { log with Operation := "Network",
                    Resource := "syscall=" ++ getSyscallName msg.ContextSys.EventID,
                    Data := "fd=" ++ fd }
  else none

/-- One iteration of the `UpdateLogs` consumer loop for one event taken
from the context channel, on a monitor whose `LogFeeder` is non-nil:
the event is shaped by the switch, the surviving log gets its `Result`
classification, and `some log` is the value handed to `PushLog`. -/
def UpdateLogsEvent (mon : SystemMonitor) (now : String) (msg : ContextCombined) :
    Option types.Log :=
  (shapeEvent mon now msg).map
    (fun log => { log with Result := classifyResult msg.ContextSys.Retval })

end monitor

namespace feeder

/-- pb.Message (kubearmor.proto). -/
structure PbMessage where
  UpdatedTime : String := ""
  ClusterName : String := ""
  HostName : String := ""
  HostIP : String := ""
  Level : String := ""
  Message : String := ""
  deriving Repr, DecidableEq

/-- pb.Log (kubearmor.proto). The Go field `Type` is spelled `Typ`. -/
structure PbLog where
  UpdatedTime : String := ""
  ClusterName : String := ""
  HostName : String := ""
  NamespaceName : String := ""
  PodName : String := ""
  ContainerID : String := ""
  ContainerName : String := ""
  HostPID : Int := 0
  PPID : Int := 0
  PID : Int := 0
  UID : Int := 0
  PolicyName : String := ""
  Severity : String := ""
  Tags : String := ""
  Message : String := ""
  Typ : String := ""
  Source : String := ""
  Operation : String := ""
  Resource : String := ""
  Data : String := ""
  Action : String := ""
  Result : String := ""
  deriving Repr, DecidableEq

/-- MsgStruct (feeder.go): the gRPC stream handle is an opaque id. -/
structure MsgStruct where
  Client : Nat
  Filter : String
  deriving Repr, DecidableEq

/-- LogStruct (feeder.go): the gRPC stream handle is an opaque id. -/
structure LogStruct where
  Client : Nat
  Filter : String
  deriving Repr, DecidableEq

/-- addMsgStruct (feeder.go): map assignment `ls.MsgStructs[uid] = msgStruct`,
on a table embedded as an association list with unique keys. -/
def addMsgStruct (tbl : List (String × MsgStruct)) (uid : String) (srv : Nat)
    (filter : String) : List (String × MsgStruct) :=
  (uid, { Client := srv, Filter := filter }) :: tbl.filter (fun p => p.1 ≠ uid)

/-- The send decision of the `WatchLogs` drain loop, exactly the if/else-if
chain of feeder.go lines 196-202: a subscriber with filter `""` always
receives the log, `"policy"` receives matched types, `"system"` receives
unmatched types, anything else never receives. -/
def logFilterSends (filter : String) (logType : String) : Bool :=
  if filter = "" then true
  else if filter = "policy" ∧ (logType = "MatchedPolicy" ∨ logType = "MatchedHostPolicy") then true
  else if filter = "system" ∧ (logType = "ContainerLog" ∨ logType = "HostLog") then true
  else false

/-- One pass of the `WatchLogs` loop body over the current queue: the
subscriber snapshot (`getLogStructs`) is taken, each queued log is popped
FIFO and sent to every subscriber whose filter admits it. The return
value of `Send` is discarded by the code, so the outcome oracle `sendOk`
is recorded but never consulted, and the subscriber table after the pass
is the table before it — the loop body contains no call to
`removeLogStruct` (the only removal is the deferred one when the
handler itself returns). -/
def WatchLogsDrain (logStructs : List (String × LogStruct)) (queue : List PbLog)
    (sendOk : String → PbLog → Bool) :
    List (String × LogStruct) × List (String × LogStruct × PbLog × Bool) :=
  (logStructs,
   queue.flatMap fun log =>
     (logStructs.filter fun p => logFilterSends p.2.Filter log.Typ).map
       fun p => (p.1, p.2, log, sendOk p.1 log))

/-- One pass of the `WatchMessages` loop body over the current queue:
every queued message is sent to every subscriber in the snapshot —
feeder.go lines 128-135 contain no filter test at all. Send outcomes are
again discarded and the table is unchanged by the pass. -/
def WatchMessagesDrain (msgStructs : List (String × MsgStruct)) (queue : List PbMessage)
    (sendOk : String → PbMessage → Bool) :
    List (String × MsgStruct) × List (String × MsgStruct × PbMessage × Bool) :=
  (msgStructs,
   queue.flatMap fun msg =>
     msgStructs.map fun p => (p.1, p.2, msg, sendOk p.1 msg))

/-- The Feeder state read by `PushLog`. `UpdateMatchedPolicy` (the policy
matcher's decoration step) is defined outside the given sources and is
kept abstract. -/
structure Feeder where
  output : String
  clusterName : String
  hostName : String
  hostIP : String
  EnableSystemLog : Bool
  UpdateMatchedPolicy : types.Log → types.Log

/-- The observable effect of one `PushLog` call: what is written to the
local sink (the log that gets JSON-marshalled, if any), the Logs queue
after the call, and the returned error (`none` is Go `nil`). -/
structure PushLogResult where
  sinkWrite : Option types.Log
  newQueue : List PbLog
  ret : Option String

/-- The pb.Log construction inside `PushLog` (feeder.go lines 434-480),
with the conditional `if len(...) > 0` copies written out (the pb zero
value of an absent string field is `""`). -/
def logToPb (clusterName : String) (log : types.Log) : PbLog :=
  { UpdatedTime := log.UpdatedTime
    ClusterName := clusterName
    HostName := log.HostName
    NamespaceName := log.NamespaceName
    PodName := log.PodName
    ContainerID := log.ContainerID
    ContainerName := log.ContainerName
    HostPID := log.HostPID
    PPID := log.PPID
    PID := log.PID
    UID := log.UID
    PolicyName := if 0 < log.PolicyName.length then log.PolicyName else ""
    Severity := if 0 < log.Severity.length then log.Severity else ""
    Tags := if 0 < log.Tags.length then log.Tags else ""
    Message := if 0 < log.Message.length then log.Message else ""
    Typ := log.Typ
    Source := log.Source
    Operation := log.Operation
    Resource := log.Resource
    Data := if 0 < log.Data.length then log.Data else ""
    Action := if 0 < log.Action.length then log.Action else ""
    Result := log.Result }

/-- PushLog (feeder.go): decorate via the policy matcher, return `nil`
early when the decorated log has an empty `UpdatedTime`, otherwise write
one line to the local sink (unless `output == "none"`) and append the
converted pb.Log to the Logs queue. -/
def PushLog (fd : Feeder) (queue : List PbLog) (log0 : types.Log) : PushLogResult :=
  let log := fd.UpdateMatchedPolicy log0
  if log.UpdatedTime = "" then
    { sinkWrite := none, newQueue := queue, ret := none }
  else
    let sink : Option types.Log :=
      if fd.output = "stdout" then some log
      else if fd.output ≠ "none" then some log
      else none
    { sinkWrite := sink, newQueue := queue ++ [logToPb fd.clusterName log], ret := none }

end feeder

end KubeArmor

open KubeArmor

/-- A concrete registry entry, used in witnesses. -/
def contEx : types.Container :=
  { ContainerID := "c1", ContainerName := "nginx", HostName := "host1",
    HostIP := "10.0.0.1", NamespaceName := "ns1", ContainerGroupName := "web",
    ImageName := "nginx:latest", Labels := ["app=web"], AppArmorProfile := "unconfined" }

/-- A concrete monitor state (auditd disabled), used in witnesses and
counterexamples. -/
def monEx : monitor.SystemMonitor :=
  { HostName := "host1",
    Containers := fun id => if id = "c1" then some contEx else none,
    EnableAuditd := false,
    GetExecPath := fun id pid => if id = "c1" ∧ pid = 7 then "/usr/bin/app" else "" }

/-- A concrete log with a non-empty update time, used in witnesses. -/
def logEx : types.Log := { UpdatedTime := "t1", HostName := "host1", Typ := "ContainerLog" }

/-- A concrete feeder whose policy decoration blanks the update time,
used in witnesses. -/
def fdEx : feeder.Feeder :=
  { output := "stdout", clusterName := "", hostName := "host1", hostIP := "10.0.0.1",
    EnableSystemLog := true,
    UpdateMatchedPolicy := fun l => { l with UpdatedTime := "" } }

/-- Claim C9: when the policy-decorated log has an empty `UpdatedTime`,
`PushLog` returns nil, writes nothing to the local sink, and leaves the
Logs queue unchanged. -/
theorem pushLog_empty_updatedTime_noop (fd : feeder.Feeder) (queue : List feeder.PbLog)
    (log : types.Log) (h : (fd.UpdateMatchedPolicy log).UpdatedTime = "") :
    feeder.PushLog fd queue log = { sinkWrite := none, newQueue := queue, ret := none } := by
  unfold feeder.PushLog
  simp [h]

/-- Witness for claim C9 at a concrete feeder, queue and log. -/
theorem pushLog_empty_updatedTime_noop_witness :
    (fdEx.UpdateMatchedPolicy logEx).UpdatedTime = "" ∧
    feeder.PushLog fdEx [] logEx = { sinkWrite := none, newQueue := [], ret := none } :=
  ⟨rfl, pushLog_empty_updatedTime_noop fdEx [] logEx rfl⟩

/-- Claim C8: container attribution — when the event's container id is in
the registry, the built log's namespace / pod / container names are the
registry entry's; when it is absent, all three are empty (and
`BuildLogBase` is total, so no error is raised). -/
theorem attribution_correct (mon : monitor.SystemMonitor) (now : String)
    (msg : monitor.ContextCombined) :
    (∀ c, mon.Containers msg.ContainerID = some c →
      (monitor.BuildLogBase mon now msg).NamespaceName = c.NamespaceName ∧
      (monitor.BuildLogBase mon now msg).PodName = c.ContainerGroupName ∧
      (monitor.BuildLogBase mon now msg).ContainerName = c.ContainerName) ∧
    (mon.Containers msg.ContainerID = none →
      (monitor.BuildLogBase mon now msg).NamespaceName = "" ∧
      (monitor.BuildLogBase mon now msg).PodName = "" ∧
      (monitor.BuildLogBase mon now msg).ContainerName = "") := by
  constructor
  · intro c hc
    simp [monitor.BuildLogBase, monitor.GetNameFromContainerID, hc]
  · intro hc
    simp [monitor.BuildLogBase, monitor.GetNameFromContainerID, hc]

/-- A concrete openat event from container c1, used in witnesses. -/
def evOpenatEx : monitor.ContextCombined :=
  { ContainerID := "c1",
    ContextSys := { HostPID := 42, PPID := 1, PID := 7, UID := 0,
                    EventID := monitor.SYS_OPENAT,
                    Comm := ['n', 'g', 'i', 'n', 'x', Char.ofNat 0],
                    Retval := 0 },
    ContextArgs := [monitor.Arg.i32 (-100), monitor.Arg.str "/etc/passwd",
                    monitor.Arg.str "O_RDONLY"] }

/-- Witness for claim C8: both registry branches at concrete inputs. -/
theorem attribution_correct_witness :
    (monEx.Containers "c1" = some contEx ∧
      (monitor.BuildLogBase monEx "t1" evOpenatEx).NamespaceName = "ns1" ∧
      (monitor.BuildLogBase monEx "t1" evOpenatEx).PodName = "web" ∧
      (monitor.BuildLogBase monEx "t1" evOpenatEx).ContainerName = "nginx") ∧
    (monEx.Containers "c9" = none ∧
      (monitor.BuildLogBase monEx "t1" { evOpenatEx with ContainerID := "c9" }).NamespaceName = "" ∧
      (monitor.BuildLogBase monEx "t1" { evOpenatEx with ContainerID := "c9" }).PodName = "" ∧
      (monitor.BuildLogBase monEx "t1" { evOpenatEx with ContainerID := "c9" }).ContainerName = "") :=
  ⟨⟨rfl, (attribution_correct monEx "t1" evOpenatEx).1 contEx rfl⟩,
   ⟨rfl, (attribution_correct monEx "t1" { evOpenatEx with ContainerID := "c9" }).2 rfl⟩⟩

/-- Membership in the send list of one `WatchMessages` drain pass. -/
theorem mem_WatchMessagesDrain (tbl : List (String × feeder.MsgStruct))
    (queue : List feeder.PbMessage) (sendOk : String → feeder.PbMessage → Bool)
    (u : String) (s : feeder.MsgStruct) (m : feeder.PbMessage) (ok : Bool) :
    (u, s, m, ok) ∈ (feeder.WatchMessagesDrain tbl queue sendOk).2 ↔
      ((u, s) ∈ tbl ∧ m ∈ queue ∧ ok = sendOk u m) := by
  simp only [feeder.WatchMessagesDrain, List.mem_flatMap, List.mem_map]
  constructor
  · rintro ⟨m2, hm2, p, hp, heq⟩
    obtain ⟨pu, ps⟩ := p
    simp only [Prod.mk.injEq] at heq
    obtain ⟨h1, h2, h3, h4⟩ := heq
    subst h1; subst h2; subst h3
    exact ⟨hp, hm2, h4.symm⟩
  · rintro ⟨hp, hm, hok⟩
    refine ⟨m, hm, (u, s), hp, ?_⟩
    rw [hok]

/-- Claim C10: the `WatchMessages` drain sends every dequeued message to
every registered message subscriber, whatever filter the subscriber
registered with: the filter is stored by `addMsgStruct` but never
consulted during delivery. -/
theorem watchMessages_ignores_filter (tbl : List (String × feeder.MsgStruct))
    (queue : List feeder.PbMessage) (sendOk : String → feeder.PbMessage → Bool)
    (uid : String) (srv : Nat) (filter : String) :
    (feeder.addMsgStruct tbl uid srv filter).lookup uid =
      some { Client := srv, Filter := filter } ∧
    ∀ u s m ok, (u, s, m, ok) ∈ (feeder.WatchMessagesDrain tbl queue sendOk).2 ↔
      ((u, s) ∈ tbl ∧ m ∈ queue ∧ ok = sendOk u m) := by
  constructor
  · simp [feeder.addMsgStruct, List.lookup]
  · intro u s m ok
    exact mem_WatchMessagesDrain tbl queue sendOk u s m ok

/-- A concrete message and subscriber table for the C10 witness. -/
def msgEx : feeder.PbMessage :=
  { UpdatedTime := "t1", ClusterName := "", HostName := "host1",
    HostIP := "10.0.0.1", Level := "INFO", Message := "hello" }

/-- Witness for claim C10: a subscriber registered with an unrecognized
filter still receives the queued message. -/
theorem watchMessages_ignores_filter_witness :
    (feeder.addMsgStruct [] "u1" 7 "weird").lookup "u1" =
      some { Client := 7, Filter := "weird" } ∧
    ("u1", { Client := 7, Filter := "weird" }, msgEx, true) ∈
      (feeder.WatchMessagesDrain [("u1", { Client := 7, Filter := "weird" })] [msgEx]
        (fun _ _ => true)).2 :=
  ⟨(watchMessages_ignores_filter [] [] (fun _ _ => true) "u1" 7 "weird").1,
   ((watchMessages_ignores_filter [("u1", { Client := 7, Filter := "weird" })] [msgEx]
      (fun _ _ => true) "u1" 7 "weird").2 "u1" { Client := 7, Filter := "weird" } msgEx true).mpr
     (by simp)⟩

/-- The boolean send decision of the `WatchLogs` drain, characterized as
the filter property of the spec. -/
theorem logFilterSends_iff (filter logType : String) :
    feeder.logFilterSends filter logType = true ↔
      (filter = "" ∨
       (filter = "policy" ∧ (logType = "MatchedPolicy" ∨ logType = "MatchedHostPolicy")) ∨
       (filter = "system" ∧ (logType = "ContainerLog" ∨ logType = "HostLog"))) := by
  unfold feeder.logFilterSends
  repeat' split
  all_goals simp_all

/-- Membership in the send list of one `WatchLogs` drain pass. -/
theorem mem_WatchLogsDrain (tbl : List (String × feeder.LogStruct)) (queue : List feeder.PbLog)
    (sendOk : String → feeder.PbLog → Bool) (uid : String) (s : feeder.LogStruct)
    (log : feeder.PbLog) (ok : Bool) :
    (uid, s, log, ok) ∈ (feeder.WatchLogsDrain tbl queue sendOk).2 ↔
      ((uid, s) ∈ tbl ∧ log ∈ queue ∧ feeder.logFilterSends s.Filter log.Typ = true ∧
       ok = sendOk uid log) := by
  simp only [feeder.WatchLogsDrain, List.mem_flatMap, List.mem_map, List.mem_filter]
  constructor
  · rintro ⟨log2, hq, p, ⟨hp, hf⟩, heq⟩
    obtain ⟨pu, ps⟩ := p
    simp only [Prod.mk.injEq] at heq
    obtain ⟨h1, h2, h3, h4⟩ := heq
    subst h1; subst h2; subst h3
    exact ⟨hp, hq, hf, h4.symm⟩
  · rintro ⟨hp, hq, hf, hok⟩
    refine ⟨log, hq, (uid, s), ⟨hp, hf⟩, ?_⟩
    rw [hok]

/-- Claim C1: every log delivered by the `WatchLogs` drain goes to a
subscriber whose filter is `""`, or is `"policy"` with a matched log
type, or is `"system"` with an unmatched log type; a subscriber with any
other filter is never sent a log. -/
theorem watchLogs_filter_correct (tbl : List (String × feeder.LogStruct))
    (queue : List feeder.PbLog) (sendOk : String → feeder.PbLog → Bool) :
    (∀ uid s log ok, (uid, s, log, ok) ∈ (feeder.WatchLogsDrain tbl queue sendOk).2 →
      (s.Filter = "" ∨
       (s.Filter = "policy" ∧ (log.Typ = "MatchedPolicy" ∨ log.Typ = "MatchedHostPolicy")) ∨
       (s.Filter = "system" ∧ (log.Typ = "ContainerLog" ∨ log.Typ = "HostLog")))) ∧
    (∀ uid s, s.Filter ≠ "" → s.Filter ≠ "policy" → s.Filter ≠ "system" →
      ∀ log ok, (uid, s, log, ok) ∉ (feeder.WatchLogsDrain tbl queue sendOk).2) := by
  constructor
  · intro uid s log ok hmem
    exact (logFilterSends_iff _ _).1 ((mem_WatchLogsDrain tbl queue sendOk uid s log ok).1 hmem).2.2.1
  · intro uid s h1 h2 h3 log ok hmem
    rcases (logFilterSends_iff _ _).1
        ((mem_WatchLogsDrain tbl queue sendOk uid s log ok).1 hmem).2.2.1 with
      h | ⟨h, _⟩ | ⟨h, _⟩
    · exact h1 h
    · exact h2 h
    · exact h3 h

/-- A concrete matched-policy log and subscriber table for the C1 witness. -/
def pbMatchedEx : feeder.PbLog :=
  { UpdatedTime := "t1", HostName := "host1", Typ := "MatchedPolicy",
    Source := "/usr/bin/app", Operation := "File", Resource := "/etc/passwd",
    Result := "Passed" }

/-- A concrete subscriber table for the C1 witness: filters "policy" and
"weird". -/
def tblEx : List (String × feeder.LogStruct) :=
  [("A", { Client := 1, Filter := "policy" }), ("B", { Client := 2, Filter := "weird" })]

/-- Witness for claim C1: a delivered log satisfies the filter property,
and the unknown-filter subscriber receives nothing. -/
theorem watchLogs_filter_correct_witness :
    (("A", { Client := 1, Filter := "policy" }, pbMatchedEx, true) ∈
        (feeder.WatchLogsDrain tblEx [pbMatchedEx] (fun _ _ => true)).2 ∧
      (({ Client := 1, Filter := "policy" } : feeder.LogStruct).Filter = "" ∨
       (({ Client := 1, Filter := "policy" } : feeder.LogStruct).Filter = "policy" ∧
        (pbMatchedEx.Typ = "MatchedPolicy" ∨ pbMatchedEx.Typ = "MatchedHostPolicy")) ∨
       (({ Client := 1, Filter := "policy" } : feeder.LogStruct).Filter = "system" ∧
        (pbMatchedEx.Typ = "ContainerLog" ∨ pbMatchedEx.Typ = "HostLog")))) ∧
    (∀ log ok, ("B", { Client := 2, Filter := "weird" }, log, ok) ∉
      (feeder.WatchLogsDrain tblEx [pbMatchedEx] (fun _ _ => true)).2) :=
  ⟨⟨by decide,
    (watchLogs_filter_correct tblEx [pbMatchedEx] (fun _ _ => true)).1 "A"
      { Client := 1, Filter := "policy" } pbMatchedEx true (by decide)⟩,
   (watchLogs_filter_correct tblEx [pbMatchedEx] (fun _ _ => true)).2 "B"
      { Client := 2, Filter := "weird" } (by decide) (by decide) (by decide)⟩

/-- A two-subscriber table (both with the empty filter) for claim C5. -/
def tblABEx : List (String × feeder.LogStruct) :=
  [("A", { Client := 1, Filter := "" }), ("B", { Client := 2, Filter := "" })]

/-- A send oracle whose sends to subscriber B fail, for claim C5. -/
def sendFailBEx : String → feeder.PbLog → Bool := fun u _ => u != "B"

/-- Claim C5 counterexample: it is not the case that a failed send
removes the subscriber from the table. In a pass over a concrete
two-subscriber table where the send to B fails, B is still registered
after the pass: the drain loop discards the `Send` error and contains no
call to `removeLogStruct`. -/
theorem send_failure_unregister_counterexample :
    ¬ ∀ (tbl : List (String × feeder.LogStruct)) (queue : List feeder.PbLog)
        (sendOk : String → feeder.PbLog → Bool) (uid : String) (s : feeder.LogStruct)
        (log : feeder.PbLog),
        (uid, s, log, false) ∈ (feeder.WatchLogsDrain tbl queue sendOk).2 →
        (uid, s) ∉ (feeder.WatchLogsDrain tbl queue sendOk).1 := by
  intro h
  exact h tblABEx [pbMatchedEx] sendFailBEx "B" { Client := 2, Filter := "" } pbMatchedEx
    (by decide) (by decide)

/-- Claim C5 amended: a failed send neither unregisters the subscriber
(the table after one drain pass of `WatchLogs` or `WatchMessages` equals
the table before; removal happens only when the subscriber's own watch
handler returns) nor prevents delivery: every queued item is attempted
to every matching subscriber, whatever the outcome of any send. -/
theorem send_failure_ignored_amended
    (tblL : List (String × feeder.LogStruct)) (queueL : List feeder.PbLog)
    (sendOkL : String → feeder.PbLog → Bool)
    (tblM : List (String × feeder.MsgStruct)) (queueM : List feeder.PbMessage)
    (sendOkM : String → feeder.PbMessage → Bool) :
    (feeder.WatchLogsDrain tblL queueL sendOkL).1 = tblL ∧
    (feeder.WatchMessagesDrain tblM queueM sendOkM).1 = tblM ∧
    (∀ uid s log, (uid, s) ∈ tblL → log ∈ queueL →
      feeder.logFilterSends s.Filter log.Typ = true →
      (uid, s, log, sendOkL uid log) ∈ (feeder.WatchLogsDrain tblL queueL sendOkL).2) ∧
    (∀ uid s m, (uid, s) ∈ tblM → m ∈ queueM →
      (uid, s, m, sendOkM uid m) ∈ (feeder.WatchMessagesDrain tblM queueM sendOkM).2) := by
  refine ⟨rfl, rfl, ?_, ?_⟩
  · intro uid s log hp hq hf
    exact (mem_WatchLogsDrain tblL queueL sendOkL uid s log (sendOkL uid log)).2 ⟨hp, hq, hf, rfl⟩
  · intro uid s m hp hq
    exact (mem_WatchMessagesDrain tblM queueM sendOkM uid s m (sendOkM uid m)).2 ⟨hp, hq, rfl⟩

/-- Witness for amended claim C5: with the send to B failing, the table
is unchanged by the pass and A is still attempted. -/
theorem send_failure_ignored_amended_witness :
    (feeder.WatchLogsDrain tblABEx [pbMatchedEx] sendFailBEx).1 = tblABEx ∧
    ("A", { Client := 1, Filter := "" }, pbMatchedEx, sendFailBEx "A" pbMatchedEx) ∈
      (feeder.WatchLogsDrain tblABEx [pbMatchedEx] sendFailBEx).2 :=
  ⟨(send_failure_ignored_amended tblABEx [pbMatchedEx] sendFailBEx [] []
      (fun _ _ => true)).1,
   (send_failure_ignored_amended tblABEx [pbMatchedEx] sendFailBEx [] []
      (fun _ _ => true)).2.2.1 "A" { Client := 1, Filter := "" } pbMatchedEx
     (by decide) (by decide) (by decide)⟩

/-- Claim C4: for exec-family events the built log's `Source` is the
tracked exec path of the event's ppid in the event's container; for all
other events it is the exec path of the event's pid; when the lookup is
empty, `Source` falls back to the comm field truncated at its first NUL
byte (the NUL-presence hypothesis mirrors the Go slice expression, which
requires a NUL to exist). -/
theorem buildLogBase_source_correct (mon : monitor.SystemMonitor) (now : String)
    (msg : monitor.ContextCombined) (hnul : Char.ofNat 0 ∈ msg.ContextSys.Comm) :
    ((msg.ContextSys.EventID = monitor.SYS_EXECVE ∨
      msg.ContextSys.EventID = monitor.SYS_EXECVEAT) →
      (mon.GetExecPath msg.ContainerID msg.ContextSys.PPID ≠ "" →
        (monitor.BuildLogBase mon now msg).Source =
          mon.GetExecPath msg.ContainerID msg.ContextSys.PPID) ∧
      (mon.GetExecPath msg.ContainerID msg.ContextSys.PPID = "" →
        (monitor.BuildLogBase mon now msg).Source =
          monitor.commBeforeNul msg.ContextSys.Comm)) ∧
    (¬(msg.ContextSys.EventID = monitor.SYS_EXECVE ∨
       msg.ContextSys.EventID = monitor.SYS_EXECVEAT) →
      (mon.GetExecPath msg.ContainerID msg.ContextSys.PID ≠ "" →
        (monitor.BuildLogBase mon now msg).Source =
          mon.GetExecPath msg.ContainerID msg.ContextSys.PID) ∧
      (mon.GetExecPath msg.ContainerID msg.ContextSys.PID = "" →
        (monitor.BuildLogBase mon now msg).Source =
          monitor.commBeforeNul msg.ContextSys.Comm)) := by
  constructor
  · intro hid
    constructor <;> intro hep
    · rcases hid with h | h <;> simp [monitor.BuildLogBase, h, hep]
    · rcases hid with h | h <;> simp [monitor.BuildLogBase, h, hep]
  · intro hid
    constructor <;> intro hep <;> simp [monitor.BuildLogBase, hid, hep]

/-- A concrete execve event from container c1 whose ppid has no tracked
exec path, used in witnesses and counterexamples. -/
def evExecveEx : monitor.ContextCombined :=
  { ContainerID := "c1",
    ContextSys := { HostPID := 42, PPID := 1, PID := 99, UID := 0,
                    EventID := monitor.SYS_EXECVE,
                    Comm := ['n', 'g', 'i', 'n', 'x', Char.ofNat 0],
                    Retval := 0 },
    ContextArgs := [monitor.Arg.str "/bin/sh"] }

/-- Witness for claim C4: the pid branch with a tracked path, and the
exec-family branch falling back to the truncated comm. -/
theorem buildLogBase_source_correct_witness :
    ((monitor.BuildLogBase monEx "t1" evOpenatEx).Source =
      monEx.GetExecPath evOpenatEx.ContainerID evOpenatEx.ContextSys.PID) ∧
    ((monitor.BuildLogBase monEx "t1" evExecveEx).Source =
      monitor.commBeforeNul evExecveEx.ContextSys.Comm) ∧
    monitor.commBeforeNul evExecveEx.ContextSys.Comm = "nginx" :=
  ⟨((buildLogBase_source_correct monEx "t1" evOpenatEx (by decide)).2
      (by decide)).1 (by decide),
   ((buildLogBase_source_correct monEx "t1" evExecveEx (by decide)).1
      (Or.inl rfl)).2 (by decide),
   by decide⟩

/-- Claim C3 counterexample: the claim says every event other than an
open/openat-with-EACCES-under-auditd has its log emitted, but the
`default: continue` of the switch drops every event whose id is not one
of the eight shaped syscalls — here a concrete execve event, with auditd
disabled, produces no log at all. -/
theorem auditd_drop_other_events_counterexample :
    monitor.UpdateLogsEvent monEx "t1" evExecveEx = none ∧
    monEx.EnableAuditd = false ∧
    evExecveEx.ContextSys.EventID ≠ monitor.SYS_OPEN ∧
    evExecveEx.ContextSys.EventID ≠ monitor.SYS_OPENAT :=
  ⟨rfl, rfl, by decide, by decide⟩

/-- Claim C3 amended: with auditd enabled, an open/openat event with
`retval == -EACCES` is dropped before reaching `PushLog`; every event
whose id is one of the eight shaped syscalls and which does not meet the
drop condition is emitted. (Events with any other id — execve among
them — are dropped by the `default` case, not emitted.) -/
theorem auditd_drop_amended (mon : monitor.SystemMonitor) (now : String)
    (msg : monitor.ContextCombined) :
    ((msg.ContextSys.EventID = monitor.SYS_OPEN ∨
      msg.ContextSys.EventID = monitor.SYS_OPENAT) →
      mon.EnableAuditd = true → msg.ContextSys.Retval = -13 →
      monitor.UpdateLogsEvent mon now msg = none) ∧
    (msg.ContextSys.EventID ∈ [monitor.SYS_OPEN, monitor.SYS_OPENAT, monitor.SYS_CLOSE,
        monitor.SYS_SOCKET, monitor.SYS_CONNECT, monitor.SYS_ACCEPT, monitor.SYS_BIND,
        monitor.SYS_LISTEN] →
      ¬((msg.ContextSys.EventID = monitor.SYS_OPEN ∨
         msg.ContextSys.EventID = monitor.SYS_OPENAT) ∧
        mon.EnableAuditd = true ∧ msg.ContextSys.Retval = -13) →
      (monitor.UpdateLogsEvent mon now msg).isSome = true) := by
  constructor
  · intro hid haud hret
    rcases hid with h | h <;>
      simp [monitor.UpdateLogsEvent, monitor.shapeEvent, h, haud, hret,
            monitor.PERMISSION_DENIED, monitor.SYS_OPEN, monitor.SYS_OPENAT]
  · intro hin hnot
    simp only [List.mem_cons, List.not_mem_nil, or_false] at hin
    rcases hin with h | h | h | h | h | h | h | h
    · have hcond : ¬(mon.EnableAuditd = true ∧ msg.ContextSys.Retval = -13) := by
        rintro ⟨ha, hr⟩
        exact hnot ⟨Or.inl h, ha, hr⟩
      simp [monitor.UpdateLogsEvent, monitor.shapeEvent, h, hcond,
            monitor.PERMISSION_DENIED]
    · have hcond : ¬(mon.EnableAuditd = true ∧ msg.ContextSys.Retval = -13) := by
        rintro ⟨ha, hr⟩
        exact hnot ⟨Or.inr h, ha, hr⟩
      simp [monitor.UpdateLogsEvent, monitor.shapeEvent, h, hcond,
            monitor.PERMISSION_DENIED, monitor.SYS_OPEN, monitor.SYS_OPENAT]
    all_goals
      simp [monitor.UpdateLogsEvent, monitor.shapeEvent, h,
            monitor.SYS_OPEN, monitor.SYS_OPENAT, monitor.SYS_CLOSE, monitor.SYS_SOCKET,
            monitor.SYS_CONNECT, monitor.SYS_ACCEPT, monitor.SYS_BIND, monitor.SYS_LISTEN]

/-- A monitor with the auditd integration enabled, for the C3 witness. -/
def monAuditdEx : monitor.SystemMonitor :=
  { monEx with EnableAuditd := true }

/-- The openat event of the witnesses with `retval = -13` (EACCES). -/
def evOpenat13Ex : monitor.ContextCombined :=
  { evOpenatEx with ContextSys := { evOpenatEx.ContextSys with Retval := -13 } }

/-- Witness for amended claim C3: the drop branch at a concrete denied
openat under auditd, and the emit branch at the same event without
auditd. -/
theorem auditd_drop_amended_witness :
    monitor.UpdateLogsEvent monAuditdEx "t1" evOpenat13Ex = none ∧
    (monitor.UpdateLogsEvent monEx "t1" evOpenat13Ex).isSome = true :=
  ⟨(auditd_drop_amended monAuditdEx "t1" evOpenat13Ex).1 (Or.inr rfl) rfl rfl,
   (auditd_drop_amended monEx "t1" evOpenat13Ex).2 (by decide) (by decide)⟩

/-- Every log emitted by `UpdateLogs` carries the result classification
of the event's return value. -/
theorem updateLogsEvent_result (mon : monitor.SystemMonitor) (now : String)
    (msg : monitor.ContextCombined) (lg : types.Log)
    (h : monitor.UpdateLogsEvent mon now msg = some lg) :
    lg.Result = monitor.classifyResult msg.ContextSys.Retval := by
  unfold monitor.UpdateLogsEvent at h
  rcases Option.map_eq_some'.1 h with ⟨l, _, hfl⟩
  rw [← hfl]

/-- Every name in the errno table is non-empty, so a successful lookup
never collides with `getErrorMessage`'s empty-string miss marker. -/
theorem errnoLookup_ne_empty (c : Int) (name : String)
    (h : monitor.errnoLookup c = some name) : name ≠ "" := by
  unfold monitor.errnoLookup at h
  cases hf : monitor.errnoTable.find? (fun p => p.1 = c) with
  | none => rw [hf] at h; cases h
  | some p =>
    rw [hf] at h
    cases h
    have hm := List.mem_of_find?_eq_some hf
    have hv : ∀ q ∈ monitor.errnoTable, q.2 ≠ "" := by decide
    exact hv p hm

/-- A concrete close event whose return value -600 is not an errno, used
for the C2 counterexample. -/
def evClose600Ex : monitor.ContextCombined :=
  { ContainerID := "c1",
    ContextSys := { HostPID := 42, PPID := 1, PID := 7, UID := 0,
                    EventID := monitor.SYS_CLOSE,
                    Comm := ['n', 'g', 'i', 'n', 'x', Char.ofNat 0],
                    Retval := -600 },
    ContextArgs := [monitor.Arg.i32 3] }

/-- Claim C2 counterexample: for a return value whose negation (600) is
not in the errno table, the claim renders the result as
`Unknown (600)` — the code off the translated value — but the code prints
the raw negative return value: `Unknown (-600)`. -/
theorem result_unknown_code_counterexample :
    (monitor.UpdateLogsEvent monEx "t1" evClose600Ex).map types.Log.Result =
      some "Unknown (-600)" ∧
    monitor.errnoLookup (-evClose600Ex.ContextSys.Retval) = none ∧
    ("Unknown (-600)" : String) ≠ "Unknown (600)" :=
  ⟨by decide, by decide, by decide⟩

/-- Claim C2 amended: a non-negative return value yields `Passed`; a
negative one whose negation is in the errno table yields the symbolic
name; a negative one whose negation is unknown yields
`Unknown (<retval>)` with the raw (negative) return value. -/
theorem result_classification_amended (mon : monitor.SystemMonitor) (now : String)
    (msg : monitor.ContextCombined) (lg : types.Log)
    (h : monitor.UpdateLogsEvent mon now msg = some lg) :
    (0 ≤ msg.ContextSys.Retval → lg.Result = "Passed") ∧
    (msg.ContextSys.Retval < 0 →
      (∀ name, monitor.errnoLookup (-msg.ContextSys.Retval) = some name →
        lg.Result = name) ∧
      (monitor.errnoLookup (-msg.ContextSys.Retval) = none →
        lg.Result = "Unknown (" ++ toString msg.ContextSys.Retval ++ ")")) := by
  have hres := updateLogsEvent_result mon now msg lg h
  constructor
  · intro hge
    rw [hres]
    unfold monitor.classifyResult
    rw [if_neg (by omega)]
  · intro hlt
    constructor
    · intro name hname
      rw [hres]
      simp [monitor.classifyResult, monitor.getErrorMessage, hlt, hname,
            errnoLookup_ne_empty _ _ hname]
    · intro hnone
      rw [hres]
      simp [monitor.classifyResult, monitor.getErrorMessage, hlt, hnone]

/-- Witness for amended claim C2: at a concrete denied openat
(`retval = -13`), the emitted result is the table's symbolic name
EACCES. -/
theorem result_classification_amended_witness :
    evOpenat13Ex.ContextSys.Retval < 0 ∧
    monitor.errnoLookup (-evOpenat13Ex.ContextSys.Retval) = some "EACCES" ∧
    (monitor.UpdateLogsEvent monEx "t1" evOpenat13Ex).map types.Log.Result =
      some "EACCES" := by
  refine ⟨by decide, by decide, ?_⟩
  cases hl : monitor.UpdateLogsEvent monEx "t1" evOpenat13Ex with
  | none => exact absurd hl (by decide)
  | some lg =>
    have hr := ((result_classification_amended monEx "t1" evOpenat13Ex lg hl).2
      (by decide)).1 "EACCES" (by decide)
    simp [hr]

/-- A concrete listen event with the spec's arity for listen — a single
file-descriptor argument (`listen: {fd}`, matching the source comment
`case SYS_LISTEN: // fd`). -/
def evListenEx : monitor.ContextCombined :=
  { ContainerID := "c1",
    ContextSys := { HostPID := 42, PPID := 1, PID := 7, UID := 0,
                    EventID := monitor.SYS_LISTEN,
                    Comm := ['n', 'g', 'i', 'n', 'x', Char.ofNat 0],
                    Retval := 0 },
    ContextArgs := [monitor.Arg.i32 5] }

/-- Claim C6 (evaluating the code at the failing input): for a listen
event carrying its single fd argument, the length guard
`len(msg.ContextArgs) == 2` in the SYS_LISTEN case never matches, so the
fd is never parsed and the emitted log's `Data` is the bare `"fd="`
instead of the claimed `"fd=5"`; operation and resource are as claimed. -/
theorem listen_fd_never_parsed :
    (monitor.UpdateLogsEvent monEx "t1" evListenEx).map
        (fun l => (l.Operation, l.Resource, l.Data)) =
      some ("Network", "syscall=listen", "fd=") ∧
    ("fd=" : String) ≠ "fd=5" :=
  ⟨by decide, by decide⟩

/-- "The same Go value" for one dynamically-typed argument: map-typed
arguments are the same Go map exactly when their recorded enumerations
are permutations of each other (Go fixes a map's contents, not its
`range` order). -/
def argSameGoValue : monitor.Arg → monitor.Arg → Prop
  | monitor.Arg.i32 a, monitor.Arg.i32 b => a = b
  | monitor.Arg.str a, monitor.Arg.str b => a = b
  | monitor.Arg.sock a, monitor.Arg.sock b => a.Perm b
  | _, _ => False

/-- "The same Go SyscallEvent": identical fields, with map-typed
arguments equal as maps. Two embedded events related by this are two
builds from one and the same Go event value, whose `range` enumerations
may differ. -/
def sameGoEvent (m1 m2 : monitor.ContextCombined) : Prop :=
  m1.ContainerID = m2.ContainerID ∧ m1.ContextSys = m2.ContextSys ∧
  List.Forall₂ argSameGoValue m1.ContextArgs m2.ContextArgs

/-- A concrete connect event whose sockaddr map enumerates ip before
port. -/
def evConnectAEx : monitor.ContextCombined :=
  { ContainerID := "c1",
    ContextSys := { HostPID := 42, PPID := 1, PID := 7, UID := 0,
                    EventID := monitor.SYS_CONNECT,
                    Comm := ['n', 'g', 'i', 'n', 'x', Char.ofNat 0],
                    Retval := 0 },
    ContextArgs := [monitor.Arg.i32 4,
                    monitor.Arg.sock [("ip", "1.2.3.4"), ("port", "80")]] }

/-- The same Go connect event with the map enumerated port-first. -/
def evConnectBEx : monitor.ContextCombined :=
  { evConnectAEx with
    ContextArgs := [monitor.Arg.i32 4,
                    monitor.Arg.sock [("port", "80"), ("ip", "1.2.3.4")]] }

/-- Claim C7 counterexample: two builds from the same Go connect event —
the sockaddr map enumerated in two of its possible `range` orders —
produce different `Resource` strings, so the shaping is not bit-exact
deterministic. -/
theorem sockaddr_order_counterexample :
    sameGoEvent evConnectAEx evConnectBEx ∧
    (monitor.UpdateLogsEvent monEx "t1" evConnectAEx).map types.Log.Resource ≠
      (monitor.UpdateLogsEvent monEx "t1" evConnectBEx).map types.Log.Resource :=
  ⟨⟨rfl, rfl,
    List.Forall₂.cons rfl (List.Forall₂.cons (List.Perm.swap _ _ _) List.Forall₂.nil)⟩,
   by decide⟩

/-- The claimed rendering of a sockaddr enumeration: each entry appended
as a space-separated `k=v` segment. -/
def sockResourceSuffix : List (String × String) → String
  | [] => ""
  | kv :: rest => " " ++ kv.1 ++ "=" ++ kv.2 ++ sockResourceSuffix rest

/-- The fold in the connect/accept/bind cases renders exactly the
space-joined `k=v` segments after the base string. -/
theorem appendSockAddr_eq (base : String) (sa : List (String × String)) :
    monitor.appendSockAddr base sa = base ++ sockResourceSuffix sa := by
  induction sa generalizing base with
  | nil =>
    show base = base ++ ""
    rw [String.append_empty]
  | cons kv rest ih =>
    show monitor.appendSockAddr (base ++ " " ++ kv.1 ++ "=" ++ kv.2) rest =
      base ++ (" " ++ kv.1 ++ "=" ++ kv.2 ++ sockResourceSuffix rest)
    rw [ih]
    simp only [String.append_assoc]

/-- Claim C7 amended: for connect/accept/bind events the `Resource` is
`"syscall=<NAME>"` followed by the sockaddr entries, each rendered as a
space-separated `k=v` segment, in the order Go's `range` happens to
enumerate the map; two builds from the same Go event agree only up to a
permutation of those segments (bit-exact equality is not guaranteed for
maps with more than one entry). -/
theorem sockaddr_resource_format_amended (mon : monitor.SystemMonitor) (now : String)
    (m1 m2 : monitor.ContextCombined) (fd : Int) (sa1 sa2 : List (String × String))
    (hid : m1.ContextSys.EventID = monitor.SYS_CONNECT ∨
           m1.ContextSys.EventID = monitor.SYS_ACCEPT ∨
           m1.ContextSys.EventID = monitor.SYS_BIND)
    (hargs1 : m1.ContextArgs = [monitor.Arg.i32 fd, monitor.Arg.sock sa1])
    (hargs2 : m2.ContextArgs = [monitor.Arg.i32 fd, monitor.Arg.sock sa2])
    (hsame : sameGoEvent m1 m2) :
    ((monitor.UpdateLogsEvent mon now m1).map types.Log.Resource =
      some (("syscall=" ++ monitor.getSyscallName m1.ContextSys.EventID) ++
        sockResourceSuffix sa1)) ∧
    ((monitor.UpdateLogsEvent mon now m2).map types.Log.Resource =
      some (("syscall=" ++ monitor.getSyscallName m1.ContextSys.EventID) ++
        sockResourceSuffix sa2)) ∧
    sa1.Perm sa2 := by
  obtain ⟨hcid, hsys, hF⟩ := hsame
  have hperm : sa1.Perm sa2 := by
    rw [hargs1, hargs2] at hF
    cases hF with
    | cons h1 htl =>
      cases htl with
      | cons h2 htl2 => exact h2
  have hid2 : m2.ContextSys.EventID = m1.ContextSys.EventID := by rw [hsys]
  refine ⟨?_, ?_, hperm⟩
  · rcases hid with h | h | h <;>
      simp [monitor.UpdateLogsEvent, monitor.shapeEvent, h, hargs1,
            monitor.argI32, monitor.argSock, appendSockAddr_eq, monitor.getSyscallName,
            monitor.SYS_OPEN, monitor.SYS_OPENAT, monitor.SYS_CLOSE, monitor.SYS_SOCKET,
            monitor.SYS_CONNECT, monitor.SYS_ACCEPT, monitor.SYS_BIND, monitor.SYS_LISTEN]
  · rcases hid with h | h | h <;> [skip; skip; skip] <;>
      (have h2 := hid2.trans h) <;>
      simp [monitor.UpdateLogsEvent, monitor.shapeEvent, h, h2, hargs2,
            monitor.argI32, monitor.argSock, appendSockAddr_eq, monitor.getSyscallName,
            monitor.SYS_OPEN, monitor.SYS_OPENAT, monitor.SYS_CLOSE, monitor.SYS_SOCKET,
            monitor.SYS_CONNECT, monitor.SYS_ACCEPT, monitor.SYS_BIND, monitor.SYS_LISTEN]

/-- Witness for amended claim C7 at the two concrete enumerations of the
same connect event. -/
theorem sockaddr_resource_format_amended_witness :
    ((monitor.UpdateLogsEvent monEx "t1" evConnectAEx).map types.Log.Resource =
      some (("syscall=" ++ monitor.getSyscallName evConnectAEx.ContextSys.EventID) ++
        sockResourceSuffix [("ip", "1.2.3.4"), ("port", "80")])) ∧
    ((monitor.UpdateLogsEvent monEx "t1" evConnectBEx).map types.Log.Resource =
      some (("syscall=" ++ monitor.getSyscallName evConnectAEx.ContextSys.EventID) ++
        sockResourceSuffix [("port", "80"), ("ip", "1.2.3.4")])) ∧
    List.Perm [("ip", "1.2.3.4"), ("port", "80")] [("port", "80"), ("ip", "1.2.3.4")] :=
  sockaddr_resource_format_amended monEx "t1" evConnectAEx evConnectBEx 4
    [("ip", "1.2.3.4"), ("port", "80")] [("port", "80"), ("ip", "1.2.3.4")]
    (Or.inl rfl) rfl rfl
    ⟨rfl, rfl,
     List.Forall₂.cons rfl (List.Forall₂.cons (List.Perm.swap _ _ _) List.Forall₂.nil)⟩
